import Mathlib

/-!
Shallow embedding of the visual-inspection engine: the shared defect data
model (include/detectors/Defect.h, src/detectors/Defect.cpp), the filter
pipeline (src/pipeline/Pipeline.cpp), the detector framework
(include/detectors/DetectorBase.h) with the FeatureDetector, TemplateMatcher
and EdgeDetector algorithms, and the orchestrating InspectionController
(src/controllers/InspectionController.cpp).

Modelling conventions:
- C++ double values that only flow through comparisons, additions and
  serialization are modelled as rationals; no claim depends on IEEE rounding.
- cv::Mat is a reference-counted view on a pixel buffer; it is modelled as a
  buffer identity plus pixel content.  The cv::Mat copy constructor and
  assignment share the buffer (same bufId); clone allocates a fresh buffer
  (new bufId, same content).  Wall-clock measurements are inputs.
- OpenCV image kernels (Canny, adaptive threshold, contour extraction,
  absdiff and so on) are opaque pixel-level computations; they are passed in
  as function parameters, while all the control flow, filtering, bookkeeping
  and classification logic around them is translated line by line.
- A C++ function that may throw is modelled with Except, the error value
  holding the message of the thrown exception.
-/

/-- DefectType enum from include/detectors/Defect.h. -/
inductive DefectType where
  | Scratch
  | Stain
  | Discoloration
  | Deformation
  | Unknown
  deriving DecidableEq

/-- cv::Rect with int fields, as used by Defect.bbox. -/
structure Rect where
  x : Int
  y : Int
  width : Int
  height : Int
  deriving DecidableEq

/-- cv::Rect::area, width times height. -/
def Rect.area (r : Rect) : Int :=
  r.width * r.height

/-- cv::Point with int coordinates (contour points). -/
structure Pointi where
  x : Int
  y : Int
  deriving DecidableEq

/-- cv::Point2f (Defect.center); float coordinates modelled as rationals. -/
structure Pointf where
  x : ℚ
  y : ℚ
  deriving DecidableEq

/-- Defect struct from include/detectors/Defect.h.  Field defaults follow the
default constructor: Unknown type, zero bbox, zero confidence, origin center,
zero area, zero circularity, empty contour. -/
structure Defect where
  type : DefectType := DefectType.Unknown
  bbox : Rect := ⟨0, 0, 0, 0⟩
  confidence : ℚ := 0
  center : Pointf := ⟨0, 0⟩
  area : ℚ := 0
  circularity : ℚ := 0
  contour : List Pointi := []
  deriving DecidableEq

/-- Defect::isValid from include/detectors/Defect.h. -/
def Defect.isValid (d : Defect) : Bool :=
  decide (0 < d.confidence) && decide (0 < d.bbox.area)

/-- defectTypeToString from src/detectors/Defect.cpp. -/
def defectTypeToString : DefectType → String
  | DefectType.Scratch => "Scratch"
  | DefectType.Stain => "Stain"
  | DefectType.Discoloration => "Discoloration"
  | DefectType.Deformation => "Deformation"
  | DefectType.Unknown => "Unknown"

/-- stringToDefectType from src/detectors/Defect.cpp. -/
def stringToDefectType (str : String) : DefectType :=
  if str = "Scratch" then DefectType.Scratch
  else if str = "Stain" then DefectType.Stain
  else if str = "Discoloration" then DefectType.Discoloration
  else if str = "Deformation" then DefectType.Deformation
  else DefectType.Unknown

/-- Defect::getTypeString from src/detectors/Defect.cpp. -/
def Defect.getTypeString (d : Defect) : String :=
  defectTypeToString d.type

/-- nlohmann::json value tree.  Integer and floating numbers are kept apart,
matching the library; floating numbers are modelled as rationals. -/
inductive Json where
  | null
  | jbool (b : Bool)
  | jint (n : Int)
  | jnum (q : ℚ)
  | jstr (s : String)
  | jarr (items : List Json)
  | jobj (fields : List (String × Json))

/-- Association lookup inside a JSON object, first match wins. -/
def Json.findField : List (String × Json) → String → Option Json
  | [], _ => none
  | (k, v) :: rest, key => if k = key then some v else Json.findField rest key

/-- Lookup j[key] on an object, none otherwise. -/
def Json.lookup : Json → String → Option Json
  | Json.jobj fields, key => Json.findField fields key
  | _, _ => none

/-- json::contains. -/
def Json.containsKey (j : Json) (key : String) : Bool :=
  (j.lookup key).isSome

/-- json::is_object. -/
def Json.isObj : Json → Bool
  | Json.jobj _ => true
  | _ => false

/-- json::is_string. -/
def Json.isStr : Json → Bool
  | Json.jstr _ => true
  | _ => false

/-- json::is_array. -/
def Json.isArr : Json → Bool
  | Json.jarr _ => true
  | _ => false

/-- json::value with an int default, as in j.value("x", 0).  A present value
of a non-integer type would throw in nlohmann; the inputs built by toJson are
always well typed there, so that path simply yields the default here. -/
def Json.valueInt (j : Json) (key : String) (dflt : Int) : Int :=
  match j.lookup key with
  | some (Json.jint n) => n
  | _ => dflt

/-- json::value with a double (or float) default, as in
j.value("confidence", 0.0); an integer JSON number converts to double. -/
def Json.valueRat (j : Json) (key : String) (dflt : ℚ) : ℚ :=
  match j.lookup key with
  | some (Json.jnum q) => q
  | some (Json.jint n) => (n : ℚ)
  | _ => dflt

/-- json::get of a string, defaulting like fromJson does when absent. -/
def Json.asStr (j : Json) : String :=
  match j with
  | Json.jstr s => s
  | _ => ""

/-- Defect::toJson from src/detectors/Defect.cpp: type string, bbox object,
confidence, center object, area, circularity, contour array of point
objects, in that insertion order. -/
def Defect.toJson (d : Defect) : Json :=
  Json.jobj
    [ ("type", Json.jstr d.getTypeString),
      ("bbox", Json.jobj
        [ ("x", Json.jint d.bbox.x),
          ("y", Json.jint d.bbox.y),
          ("width", Json.jint d.bbox.width),
          ("height", Json.jint d.bbox.height) ]),
      ("confidence", Json.jnum d.confidence),
      ("center", Json.jobj
        [ ("x", Json.jnum d.center.x),
          ("y", Json.jnum d.center.y) ]),
      ("area", Json.jnum d.area),
      ("circularity", Json.jnum d.circularity),
      ("contour", Json.jarr (d.contour.map (fun p =>
        Json.jobj [ ("x", Json.jint p.x), ("y", Json.jint p.y) ]))) ]

/-- Contour loop of Defect::fromJson: each array element that is an object
becomes a point read with value("x", 0) and value("y", 0), preserving
order; non-object elements are skipped. -/
def Defect.contourFromJson : List Json → List Pointi
  | [] => []
  | point :: rest =>
    if point.isObj then
      ⟨point.valueInt "x" 0, point.valueInt "y" 0⟩ :: Defect.contourFromJson rest
    else
      Defect.contourFromJson rest

/-- Defect::fromJson from src/detectors/Defect.cpp, guard by guard: the type
is parsed when present and a string, the bbox fields when bbox is an object,
confidence, center, area and circularity through value() with defaults, the
contour when present and an array. -/
def Defect.fromJson (j : Json) : Defect :=
  let defect : Defect := {}
  let typeIsStr : Bool :=
    match j.lookup "type" with
    | some t => t.isStr
    | none => false
  let typeStr : String :=
    match j.lookup "type" with
    | some t => t.asStr
    | none => ""
  let defect :=
    if j.containsKey "type" && typeIsStr then
      { defect with type := stringToDefectType typeStr }
    else defect
  let defect :=
    match j.lookup "bbox" with
    | some bboxJ =>
      if bboxJ.isObj then
        { defect with bbox :=
            ⟨bboxJ.valueInt "x" 0, bboxJ.valueInt "y" 0,
             bboxJ.valueInt "width" 0, bboxJ.valueInt "height" 0⟩ }
      else defect
    | none => defect
  let defect := { defect with confidence := j.valueRat "confidence" 0 }
  let defect :=
    match j.lookup "center" with
    | some centerJ =>
      if centerJ.isObj then
        { defect with center := ⟨centerJ.valueRat "x" 0, centerJ.valueRat "y" 0⟩ }
      else defect
    | none => defect
  let defect := { defect with area := j.valueRat "area" 0 }
  let defect := { defect with circularity := j.valueRat "circularity" 0 }
  let defect :=
    match j.lookup "contour" with
    | some contourJ =>
      match contourJ with
      | Json.jarr items => { defect with contour := Defect.contourFromJson items }
      | _ => defect
    | none => defect
  defect

/-- Model of cv::Mat: the identity of the shared pixel buffer plus the pixel
content (rows of pixel values).  A default-constructed cv::Mat is empty; the
copy constructor and assignment keep the same bufId (shared buffer), while
clone allocates a fresh buffer id with identical content. -/
structure Mat where
  bufId : Nat
  pixels : List (List Int)
  deriving DecidableEq

/-- cv::Mat::empty, true when the Mat holds no pixel data. -/
def Mat.isEmpty (m : Mat) : Bool :=
  m.pixels.isEmpty

/-- Default-constructed cv::Mat(). -/
def Mat.emptyMat : Mat :=
  ⟨0, []⟩

/-- cv::Mat::clone: identical pixel content in a freshly allocated buffer;
the caller supplies the fresh buffer id. -/
def Mat.clone (m : Mat) (fresh : Nat) : Mat :=
  ⟨fresh, m.pixels⟩

/-- Filter stage as seen by the Pipeline (include/filters/FilterBase.h): a
name, the enabled flag honored by the Pipeline, and the process function.
The pixel transform is opaque; an error value models a thrown exception. -/
structure FilterBase where
  name : String
  enabled : Bool
  proc : Mat → Except String Mat

/-- Loop body of Pipeline::process (src/pipeline/Pipeline.cpp): disabled
filters are skipped; a filter exception or an empty filter output aborts
with an empty cv::Mat(). -/
def Pipeline.processGo : List FilterBase → Mat → Mat
  | [], current => current
  | f :: fs, current =>
    if f.enabled then
      match f.proc current with
      | Except.error _ => Mat.emptyMat
      | Except.ok out =>
        if out.isEmpty then Mat.emptyMat else Pipeline.processGo fs out
    else Pipeline.processGo fs current

/-- Pipeline::process: empty input gives an empty Mat; an empty filter list
returns a clone of the input; otherwise the enabled filters are applied in
order.  The fresh id feeds the clone in the empty-list branch. -/
def Pipeline.process (filters : List FilterBase) (input : Mat) (fresh : Nat) : Mat :=
  if input.isEmpty then Mat.emptyMat
  else if filters.isEmpty then input.clone fresh
  else Pipeline.processGo filters input

/-- Pipeline::ProcessingResult (include/pipeline/Pipeline.h) restricted to
the fields the Controller reads; defaults as in the header (success true,
empty message, zero total time).  Intermediate snapshots, per-filter names
and times are debug payload no claim touches and are omitted. -/
structure ProcessingResult where
  finalImage : Mat := Mat.emptyMat
  totalTime : ℚ := 0
  success : Bool := true
  errorMessage : String := ""
  deriving DecidableEq

/-- Loop of Pipeline::processWithIntermediates: disabled filters skipped; a
filter exception or empty output stops the loop with the error message the
C++ builds there (quoting punctuation around the filter name dropped). -/
def Pipeline.processWithIntermediatesGo : List FilterBase → Mat → Except String Mat
  | [], current => Except.ok current
  | f :: fs, current =>
    if f.enabled then
      match f.proc current with
      | Except.error e =>
        Except.error ("Exception in filter " ++ f.name ++ ": " ++ e)
      | Except.ok out =>
        if out.isEmpty then
          Except.error ("Filter " ++ f.name ++ " produced empty output")
        else Pipeline.processWithIntermediatesGo fs out
    else Pipeline.processWithIntermediatesGo fs current

/-- Pipeline::processWithIntermediates: empty input fails; an empty filter
list succeeds with a clone of the input and default timing; otherwise the
filters run in order and the measured wall-clock total time (an environment
input here) is recorded on success. -/
def Pipeline.processWithIntermediates (filters : List FilterBase) (input : Mat)
    (fresh : Nat) (measuredTime : ℚ) : ProcessingResult :=
  if input.isEmpty then
    { success := false, errorMessage := "Input image is empty" }
  else if filters.isEmpty then
    { finalImage := input.clone fresh }
  else
    match Pipeline.processWithIntermediatesGo filters input with
    | Except.error e => { success := false, errorMessage := e }
    | Except.ok fin => { finalImage := fin, totalTime := measuredTime }

/-- Cumulative detector statistics from DetectorBase
(include/detectors/DetectorBase.h): totalDetections and
totalProcessingTime, both zero-initialized. -/
structure DetectorStats where
  totalDetections : Nat := 0
  totalProcessingTime : ℚ := 0
  deriving DecidableEq

/-- DetectorBase::recordStatistics: adds the defect count of the call to the
detection total and the elapsed milliseconds to the time total. -/
def DetectorBase.recordStatistics (st : DetectorStats) (numDefects : Nat)
    (processingTime : ℚ) : DetectorStats :=
  ⟨st.totalDetections + numDefects, st.totalProcessingTime + processingTime⟩

/-- DetectorBase::hasReferenceImage: a reference image is set when the
stored Mat is non-empty. -/
def DetectorBase.hasReferenceImage (referenceImage : Mat) : Bool :=
  !referenceImage.isEmpty

/-- DetectionMode enum from include/detectors/FeatureDetector.h. -/
inductive DetectionMode where
  | Edge
  | Threshold
  | Adaptive
  | Combined
  deriving DecidableEq

/-- Pixel-level kernels of FeatureDetector (src/detectors/FeatureDetector.cpp):
detectByEdge, detectByThreshold and detectByAdaptive each run an OpenCV
masking pipeline followed by extractDefectsFromContours; those deterministic
image computations are opaque here and supplied as functions from the input
image to the kept defect list. -/
structure FeatureAlg where
  detectByEdge : Mat → List Defect
  detectByThreshold : Mat → List Defect
  detectByAdaptive : Mat → List Defect

/-- FeatureDetector::detectByCombined: simple concatenation of the Edge
results and the Adaptive results, no deduplication. -/
def FeatureDetector.detectByCombined (alg : FeatureAlg) (image : Mat) : List Defect :=
  alg.detectByEdge image ++ alg.detectByAdaptive image

/-- Mutable FeatureDetector state relevant to detect: mode, enabled flag and
cumulative statistics. -/
structure FeatureDetectorState where
  mode : DetectionMode
  enabled : Bool := true
  stats : DetectorStats := {}

/-- FeatureDetector::detect: an empty image or a disabled detector returns
the empty list immediately (before any statistics bookkeeping); otherwise
the mode dispatch runs and recordStatistics adds the defect count and the
measured elapsed milliseconds. -/
def FeatureDetector.detect (alg : FeatureAlg) (st : FeatureDetectorState)
    (image : Mat) (elapsed : ℚ) : List Defect × FeatureDetectorState :=
  if image.isEmpty || !st.enabled then
    ([], st)
  else
    let defects :=
      match st.mode with
      | DetectionMode.Edge => alg.detectByEdge image
      | DetectionMode.Threshold => alg.detectByThreshold image
      | DetectionMode.Adaptive => alg.detectByAdaptive image
      | DetectionMode.Combined => FeatureDetector.detectByCombined alg image
    (defects, { st with
      stats := DetectorBase.recordStatistics st.stats defects.length elapsed })

/-- Normalized aspect ratio used by the classifiers: width over height,
inverted when below one so the result is at least one. -/
def normalizedAspectRatio (bbox : Rect) : ℚ :=
  let aspectRatio : ℚ := (bbox.width : ℚ) / (bbox.height : ℚ)
  if aspectRatio < 1 then 1 / aspectRatio else aspectRatio

/-- TemplateMatcher::classifyDefect (src/detectors/TemplateMatcher.cpp).
The circularity argument stands for calculateCircularity(contour), whose
geometric computation (4 pi area over squared perimeter, clamped to at most
one) enters the classifier only through these comparisons. -/
def TemplateMatcher.classifyDefect (circularity : ℚ) (bbox : Rect) : DefectType :=
  let aspectRatio := normalizedAspectRatio bbox
  if circularity > 8/10 then DefectType.Stain
  else if aspectRatio > 3 then DefectType.Scratch
  else if circularity < 1/2 then DefectType.Discoloration
  else DefectType.Deformation

/-- Mutable TemplateMatcher state relevant to detect: enabled flag,
reference image and cumulative statistics. -/
structure TemplateMatcherState where
  enabled : Bool := true
  referenceImage : Mat := Mat.emptyMat
  stats : DetectorStats := {}

/-- TemplateMatcher::detect: empty input, missing reference image or a
disabled detector each return the empty list immediately, in that order and
before any differencing work or statistics bookkeeping; otherwise the
grayscale, resize, align, absdiff and findDefectRegions chain (opaque
pixel computation diffPipeline of test and reference image) produces the
defects and recordStatistics runs. -/
def TemplateMatcher.detect (diffPipeline : Mat → Mat → List Defect)
    (st : TemplateMatcherState) (image : Mat) (elapsed : ℚ) :
    List Defect × TemplateMatcherState :=
  if image.isEmpty then
    ([], st)
  else if !DetectorBase.hasReferenceImage st.referenceImage then
    ([], st)
  else if !st.enabled then
    ([], st)
  else
    let defects := diffPipeline image st.referenceImage
    (defects, { st with
      stats := DetectorBase.recordStatistics st.stats defects.length elapsed })

/-- Mutable EdgeDetector state relevant to detect. -/
structure EdgeDetectorState where
  enabled : Bool := true
  stats : DetectorStats := {}

/-- EdgeDetector::detect (src/detectors/EdgeDetector.cpp): an empty image or
a disabled detector returns the empty list before the try block.  The body
(edge-map extraction, contour loop with length, angle and confidence
filters) is an opaque computation returning the accumulated defects plus a
completion flag; when an exception is caught mid-body the partial defects
are returned and the statistics recording inside the try block is skipped. -/
def EdgeDetector.detect (body : Mat → List Defect × Bool)
    (st : EdgeDetectorState) (image : Mat) (elapsed : ℚ) :
    List Defect × EdgeDetectorState :=
  if image.isEmpty then
    ([], st)
  else if !st.enabled then
    ([], st)
  else
    let r := body image
    if r.2 then
      (r.1, { st with
        stats := DetectorBase.recordStatistics st.stats r.1.length elapsed })
    else
      (r.1, st)

/-- InspectionController state (include/InspectionController.h): judgment
criteria, configuration flags and the running statistics, initialized as in
the constructor (maxAllowedDefects 0, minDefectConfidence 0.5,
visualization on, statistics zeroed). -/
structure ControllerState where
  maxAllowedDefects : Nat := 0
  minDefectConfidence : ℚ := 1/2
  visualizationEnabled : Bool := true
  saveIntermediateImages : Bool := false
  totalInspections : Nat := 0
  totalDefectsFound : Nat := 0
  totalNGCount : Nat := 0
  totalProcessingTime : ℚ := 0
  deriving DecidableEq

/-- A registered detector as the Controller sees it through DetectorBase:
the isEnabled flag and the virtual detect call; an error value is a thrown
exception escaping detect.  The Controller stores owning non-null pointers,
so the null guard of the loop is vacuous here. -/
structure Detector where
  enabled : Bool
  run : Mat → Except String (List Defect)

/-- Detection loop of InspectionController::inspect (lines 137 to 142):
enabled detectors run in registration order and their defect lists are
concatenated; an exception from one detect call propagates out of the loop
at once, so later detectors are not reached. -/
def InspectionController.runDetectors : List Detector → Mat → Except String (List Defect)
  | [], _ => Except.ok []
  | d :: ds, image =>
    if d.enabled then
      match d.run image with
      | Except.error e => Except.error e
      | Except.ok defects =>
        match InspectionController.runDetectors ds image with
        | Except.error e => Except.error e
        | Except.ok rest => Except.ok (defects ++ rest)
    else InspectionController.runDetectors ds image

/-- InspectionResult (include/InspectionController.h) with the field
defaults of the struct: success false, isOK true, zero times, empty
strings, images and defect list. -/
structure InspectionResult where
  success : Bool := false
  errorMessage : String := ""
  originalImage : Mat := Mat.emptyMat
  processedImage : Mat := Mat.emptyMat
  visualizedImage : Mat := Mat.emptyMat
  defects : List Defect := []
  isOK : Bool := true
  preprocessingTime : ℚ := 0
  detectionTime : ℚ := 0
  totalTime : ℚ := 0
  timestamp : String := ""
  deriving DecidableEq

/-- InspectionController::judgeResult: OK exactly when the defect count is
at most maxAllowedDefects. -/
def InspectionController.judgeResult (s : ControllerState)
    (defects : List Defect) : Bool :=
  decide (defects.length ≤ s.maxAllowedDefects)

/-- InspectionController::setJudgmentCriteria: maxAllowedDefects is always
overwritten; minDefectConfidence only when the new value lies in the unit
interval, otherwise the previous value is retained. -/
def InspectionController.setJudgmentCriteria (s : ControllerState)
    (maxDefects : Nat) (minConfidence : ℚ) : ControllerState :=
  { s with
    maxAllowedDefects := maxDefects,
    minDefectConfidence :=
      if 0 ≤ minConfidence ∧ minConfidence ≤ 1 then minConfidence
      else s.minDefectConfidence }

/-- Environment inputs of one inspect call: the wall-clock measurements the
code takes, the timestamp, and a base for fresh buffer ids used by the
clone calls. -/
structure InspectEnv where
  preprocessingTime : ℚ := 0
  pipeTime : ℚ := 0
  detectionTime : ℚ := 0
  totalTime : ℚ := 0
  timestamp : String := ""
  fresh : Nat := 100

/-- Tail of InspectionController::inspect after a successful preprocessing
step (lines 131 to 192): detector loop inside the try block, confidence
filtering, judgment, optional visualization (the drawing routine
visualizeDefects is the opaque viz function), the catch clause converting a
detector exception into a failed result, the total-time stamp, and the
statistics update that this common exit path always performs. -/
def InspectionController.inspectDetectPhase (s : ControllerState)
    (detectors : List Detector) (viz : Mat → List Defect → Mat)
    (image : Mat) (processedImage : Mat) (result : InspectionResult)
    (env : InspectEnv) : InspectionResult × ControllerState :=
  let result := { result with processedImage := processedImage.clone (env.fresh + 3) }
  let result :=
    match InspectionController.runDetectors detectors processedImage with
    | Except.error e =>
      { result with
        success := false,
        errorMessage := "Exception during inspection: " ++ e }
    | Except.ok allDefects =>
      let filteredDefects := allDefects.filter
        (fun (defect : Defect) => decide (s.minDefectConfidence ≤ defect.confidence))
      let result := { result with detectionTime := env.detectionTime }
      let result := { result with defects := filteredDefects }
      let result := { result with
        isOK := InspectionController.judgeResult s filteredDefects }
      let visualizedImage :=
        if s.visualizationEnabled && !filteredDefects.isEmpty then
          viz image filteredDefects
        else if s.visualizationEnabled then
          image.clone (env.fresh + 4)
        else result.visualizedImage
      let result := { result with visualizedImage := visualizedImage }
      { result with success := true }
  let result := { result with totalTime := env.totalTime }
  let s2 : ControllerState := { s with
    totalInspections := s.totalInspections + 1,
    totalDefectsFound := s.totalDefectsFound + result.defects.length,
    totalNGCount := s.totalNGCount + (if result.isOK then 0 else 1),
    totalProcessingTime := s.totalProcessingTime + result.totalTime }
  (result, s2)

/-- InspectionController::inspect (lines 95 to 193).  An empty input or a
preprocessing failure returns at once, skipping the statistics block; every
other path, the caught detector exception included, falls through to
inspectDetectPhase and updates the statistics. -/
def InspectionController.inspect (s : ControllerState)
    (pipeline : Option (List FilterBase)) (detectors : List Detector)
    (viz : Mat → List Defect → Mat) (image : Mat) (env : InspectEnv) :
    InspectionResult × ControllerState :=
  let result : InspectionResult := {}
  if image.isEmpty then
    ({ result with success := false, errorMessage := "Input image is empty" }, s)
  else
    let result := { result with
      originalImage := image.clone env.fresh,
      timestamp := env.timestamp }
    let processedImage := image.clone (env.fresh + 1)
    match pipeline with
    | some filters =>
      if 0 < filters.length then
        let pipelineResult :=
          Pipeline.processWithIntermediates filters image (env.fresh + 2) env.pipeTime
        if !pipelineResult.success then
          ({ result with
              success := false,
              errorMessage := "Preprocessing failed: " ++ pipelineResult.errorMessage },
           s)
        else
          let result := { result with preprocessingTime := env.preprocessingTime }
          InspectionController.inspectDetectPhase s detectors viz image
            pipelineResult.finalImage result env
      else
        InspectionController.inspectDetectPhase s detectors viz image
          processedImage result env
    | none =>
      InspectionController.inspectDetectPhase s detectors viz image
        processedImage result env

/-- Success predicate of the preprocessing step of inspect, mirroring its
condition structure: no pipeline and an empty filter list trivially
succeed, a non-empty filter list succeeds when processWithIntermediates
reports success. -/
def InspectionController.preprocessOK (pipeline : Option (List FilterBase))
    (image : Mat) (fresh : Nat) (pipeTime : ℚ) : Bool :=
  match pipeline with
  | none => true
  | some filters =>
    if 0 < filters.length then
      (Pipeline.processWithIntermediates filters image (fresh + 2) pipeTime).success
    else true

/-- Concrete 1 by 1 test image living in buffer 7. -/
def m7 : Mat :=
  ⟨7, [[3]]⟩

/-- Visualization stand-in returning the original image. -/
def vizId : Mat → List Defect → Mat :=
  fun image _ => image

/-- Detector whose detect call throws. -/
def throwingDetector : Detector :=
  ⟨true, fun _ => Except.error "boom"⟩

/-- Well-formed detected defect with comfortable confidence. -/
def goodDefect : Defect :=
  { type := DefectType.Stain, bbox := ⟨0, 0, 4, 5⟩, confidence := 1 }

/-- Detector returning one well-formed defect. -/
def goodDetector : Detector :=
  ⟨true, fun _ => Except.ok [goodDefect]⟩

/-- Degenerate defect with zero confidence and an empty bounding box. -/
def zeroConfDefect : Defect :=
  { confidence := 0, bbox := ⟨0, 0, 0, 0⟩ }

/-- Degenerate defect with confidence above one and a zero-width box. -/
def overConfDefect : Defect :=
  { confidence := 2, bbox := ⟨0, 0, 0, 5⟩ }

/-- Detector returning the two degenerate defects. -/
def badDetector : Detector :=
  ⟨true, fun _ => Except.ok [zeroConfDefect, overConfDefect]⟩

/-- Registered but disabled identity filter. -/
def disabledFilter : FilterBase :=
  ⟨"identityFilter", false, fun image => Except.ok image⟩

/-- FeatureDetector kernels that find nothing. -/
def alg0 : FeatureAlg :=
  ⟨fun _ => [], fun _ => [], fun _ => []⟩

/-- Fresh FeatureDetector in Adaptive mode. -/
def fdState0 : FeatureDetectorState :=
  { mode := DetectionMode.Adaptive }

/-- Fresh TemplateMatcher without a reference image. -/
def tmNoRef : TemplateMatcherState :=
  {}

/-- Controller configured through setJudgmentCriteria with zero allowed
defects and a zero minimum confidence (both accepted by the setter). -/
def cState0 : ControllerState :=
  InspectionController.setJudgmentCriteria {} 0 0

/-- The contour parsing loop of fromJson inverts the contour serialization
loop of toJson: every serialized point is an object and parses back to the
original point. -/
theorem contourFromJson_map (l : List Pointi) :
    Defect.contourFromJson (l.map (fun p =>
      Json.jobj [("x", Json.jint p.x), ("y", Json.jint p.y)])) = l := by
  induction l with
  | nil => rfl
  | cons p rest ih =>
    have h1 : Defect.contourFromJson ((p :: rest).map (fun p =>
        Json.jobj [("x", Json.jint p.x), ("y", Json.jint p.y)])) =
        p :: Defect.contourFromJson (rest.map (fun p =>
          Json.jobj [("x", Json.jint p.x), ("y", Json.jint p.y)])) := rfl
    rw [h1, ih]

/-- Parsing the serialized type string returns the original type. -/
theorem stringToDefectType_defectTypeToString (t : DefectType) :
    stringToDefectType (defectTypeToString t) = t := by
  cases t <;> rfl

/-- Serializing a Defect with toJson and parsing it back with fromJson
recovers the defect exactly. -/
theorem defect_fromJson_toJson (d : Defect) :
    Defect.fromJson (Defect.toJson d) = d := by
  have hc : Defect.contourFromJson (d.contour.map (fun p =>
      Json.jobj [("x", Json.jint p.x), ("y", Json.jint p.y)])) = d.contour :=
    contourFromJson_map d.contour
  calc Defect.fromJson (Defect.toJson d)
      = { type := stringToDefectType (defectTypeToString d.type),
          bbox := d.bbox,
          confidence := d.confidence,
          center := d.center,
          area := d.area,
          circularity := d.circularity,
          contour := Defect.contourFromJson (d.contour.map (fun p =>
            Json.jobj [("x", Json.jint p.x), ("y", Json.jint p.y)])) } := rfl
    _ = d := by rw [hc, stringToDefectType_defectTypeToString]

/-- C8: the Defect to JSON to Defect round trip through Defect::toJson and
Defect::fromJson preserves the type, the bounding box, the confidence, the
center, the area, the circularity, and the number of contour points. -/
theorem defect_json_roundtrip (d : Defect) :
    (Defect.fromJson (Defect.toJson d)).type = d.type ∧
    (Defect.fromJson (Defect.toJson d)).bbox = d.bbox ∧
    (Defect.fromJson (Defect.toJson d)).confidence = d.confidence ∧
    (Defect.fromJson (Defect.toJson d)).center = d.center ∧
    (Defect.fromJson (Defect.toJson d)).area = d.area ∧
    (Defect.fromJson (Defect.toJson d)).circularity = d.circularity ∧
    (Defect.fromJson (Defect.toJson d)).contour.length = d.contour.length := by
  rw [defect_fromJson_toJson]
  exact ⟨rfl, rfl, rfl, rfl, rfl, rfl, rfl⟩

/-- C5: on every input image (and every internal mode kernel), Combined mode
delivers exactly the Edge mode defect list concatenated with the Adaptive
mode defect list, without deduplication, so a defect reported by both modes
is counted twice in the Combined output. -/
theorem featureDetector_combined_is_edge_concat_adaptive (alg : FeatureAlg)
    (st : FeatureDetectorState) (image : Mat) (elapsed : ℚ) :
    (FeatureDetector.detect alg { st with mode := DetectionMode.Combined } image elapsed).1 =
      (FeatureDetector.detect alg { st with mode := DetectionMode.Edge } image elapsed).1 ++
      (FeatureDetector.detect alg { st with mode := DetectionMode.Adaptive } image elapsed).1 ∧
    ∀ d : Defect,
      (FeatureDetector.detect alg { st with mode := DetectionMode.Combined } image elapsed).1.count d =
        (FeatureDetector.detect alg { st with mode := DetectionMode.Edge } image elapsed).1.count d +
        (FeatureDetector.detect alg { st with mode := DetectionMode.Adaptive } image elapsed).1.count d := by
  have h1 : (FeatureDetector.detect alg { st with mode := DetectionMode.Combined } image elapsed).1 =
      (FeatureDetector.detect alg { st with mode := DetectionMode.Edge } image elapsed).1 ++
      (FeatureDetector.detect alg { st with mode := DetectionMode.Adaptive } image elapsed).1 := by
    unfold FeatureDetector.detect
    by_cases h : (image.isEmpty || !st.enabled) = true
    · simp [h]
    · simp only [h]
      simp [FeatureDetector.detectByCombined]
  exact ⟨h1, fun d => by rw [h1, List.count_append]⟩

/-- Numeric fact: circularity 0.3 does not clear the 0.8 Stain threshold. -/
theorem circ_three_tenths_not_stain : ¬((3:ℚ)/10 > 8/10) := by norm_num

/-- Numeric fact: circularity 0.9 clears the 0.8 Stain threshold. -/
theorem circ_nine_tenths_is_stain : ((9:ℚ)/10 > 8/10) := by norm_num

/-- Numeric fact: a 50 by 10 box has normalized aspect ratio above 3. -/
theorem aspect_fifty_ten_above_three :
    normalizedAspectRatio ⟨0, 0, 50, 10⟩ > 3 := by
  norm_num [normalizedAspectRatio]

/-- C6: the TemplateMatcher classification rule order on a kept contour with
a non-degenerate bounding box: circularity above 0.8 gives Stain first;
otherwise a normalized aspect ratio above 3 gives Scratch; otherwise
circularity below 0.5 gives Discoloration; otherwise Deformation.  In
particular an elongated low-circularity contour is Scratch, not
Discoloration. -/
theorem templateMatcher_classify_rule_order :
    (∀ (c : ℚ) (bbox : Rect), c > 8/10 →
      TemplateMatcher.classifyDefect c bbox = DefectType.Stain) ∧
    (∀ (c : ℚ) (bbox : Rect), 0 < bbox.width → 0 < bbox.height →
      ¬(c > 8/10) → normalizedAspectRatio bbox > 3 →
      TemplateMatcher.classifyDefect c bbox = DefectType.Scratch) ∧
    (∀ (c : ℚ) (bbox : Rect), 0 < bbox.width → 0 < bbox.height →
      ¬(c > 8/10) → ¬(normalizedAspectRatio bbox > 3) → c < 1/2 →
      TemplateMatcher.classifyDefect c bbox = DefectType.Discoloration) ∧
    (∀ (c : ℚ) (bbox : Rect), 0 < bbox.width → 0 < bbox.height →
      ¬(c > 8/10) → ¬(normalizedAspectRatio bbox > 3) → ¬(c < 1/2) →
      TemplateMatcher.classifyDefect c bbox = DefectType.Deformation) ∧
    TemplateMatcher.classifyDefect (3/10) ⟨0, 0, 50, 10⟩ = DefectType.Scratch := by
  refine ⟨?_, ?_, ?_, ?_, ?_⟩
  · intro c bbox h
    simp only [TemplateMatcher.classifyDefect]
    rw [if_pos h]
  · intro c bbox _ _ h1 h2
    simp only [TemplateMatcher.classifyDefect]
    rw [if_neg h1, if_pos h2]
  · intro c bbox _ _ h1 h2 h3
    simp only [TemplateMatcher.classifyDefect]
    rw [if_neg h1, if_neg h2, if_pos h3]
  · intro c bbox _ _ h1 h2 h3
    simp only [TemplateMatcher.classifyDefect]
    rw [if_neg h1, if_neg h2, if_neg h3]
  · simp only [TemplateMatcher.classifyDefect]
    rw [if_neg circ_three_tenths_not_stain, if_pos aspect_fifty_ten_above_three]

/-- Witness for the classification rule order: the branch theorems applied
at concrete features, an elongated low-circularity contour (circularity
0.3, box 50 by 10) landing on Scratch and a round one (circularity 0.9) on
Stain. -/
theorem templateMatcher_classify_rule_order_witness :
    TemplateMatcher.classifyDefect (3/10) ⟨0, 0, 50, 10⟩ = DefectType.Scratch ∧
    TemplateMatcher.classifyDefect (9/10) ⟨0, 0, 1, 1⟩ = DefectType.Stain :=
  ⟨templateMatcher_classify_rule_order.2.1 (3/10) ⟨0, 0, 50, 10⟩
      (by decide) (by decide) circ_three_tenths_not_stain aspect_fifty_ten_above_three,
   templateMatcher_classify_rule_order.1 (9/10) ⟨0, 0, 1, 1⟩ circ_nine_tenths_is_stain⟩

/-- C10: without a reference image, TemplateMatcher::detect returns the
empty defect list and leaves the detector state untouched, whatever the
input image and whatever the differencing pipeline would have produced; a
normal return, not an error. -/
theorem templateMatcher_detect_without_reference
    (diffPipeline : Mat → Mat → List Defect) (st : TemplateMatcherState)
    (image : Mat) (elapsed : ℚ)
    (h : DetectorBase.hasReferenceImage st.referenceImage = false) :
    TemplateMatcher.detect diffPipeline st image elapsed = ([], st) := by
  unfold TemplateMatcher.detect
  by_cases himg : image.isEmpty = true
  · simp [himg]
  · simp [himg, h]

/-- Witness: a TemplateMatcher with no reference image returns no defects
on the concrete test image even though its differencing pipeline would
report one. -/
theorem templateMatcher_detect_without_reference_witness :
    DetectorBase.hasReferenceImage tmNoRef.referenceImage = false ∧
    TemplateMatcher.detect (fun _ _ => [goodDefect]) tmNoRef m7 2 = ([], tmNoRef) :=
  ⟨rfl, templateMatcher_detect_without_reference (fun _ _ => [goodDefect]) tmNoRef m7 2 rfl⟩

/-- C9 counterexample: a FeatureDetector detect call on an empty image with
5 ms of elapsed time leaves the cumulative statistics untouched instead of
adding the elapsed time, so the statistics are not updated on every call. -/
theorem detector_statistics_every_call_cex :
    ¬ ((FeatureDetector.detect alg0 fdState0 Mat.emptyMat 5).2.stats.totalProcessingTime =
        fdState0.stats.totalProcessingTime + 5) := by
  intro h
  have h0 : (FeatureDetector.detect alg0 fdState0 Mat.emptyMat 5).2.stats.totalProcessingTime
      = (0 : ℚ) := rfl
  have h1 : fdState0.stats.totalProcessingTime = (0 : ℚ) := rfl
  rw [h0, h1] at h
  norm_num at h

/-- C9 amended: the cumulative statistics are updated exactly by the detect
calls that pass the early-exit checks and complete without an exception; a
completing call adds the returned defect count and the elapsed time, while
an empty image, a disabled detector, a TemplateMatcher without reference
image, or an exception inside EdgeDetector leaves the statistics as they
were. -/
theorem detector_statistics_on_completed_calls :
    (∀ (alg : FeatureAlg) (st : FeatureDetectorState) (image : Mat) (elapsed : ℚ),
      image.isEmpty = false → st.enabled = true →
      (FeatureDetector.detect alg st image elapsed).2.stats =
        DetectorBase.recordStatistics st.stats
          (FeatureDetector.detect alg st image elapsed).1.length elapsed) ∧
    (∀ (alg : FeatureAlg) (st : FeatureDetectorState) (image : Mat) (elapsed : ℚ),
      image.isEmpty = true ∨ st.enabled = false →
      FeatureDetector.detect alg st image elapsed = ([], st)) ∧
    (∀ (body : Mat → List Defect × Bool) (st : EdgeDetectorState) (image : Mat) (elapsed : ℚ),
      image.isEmpty = false → st.enabled = true → (body image).2 = true →
      (EdgeDetector.detect body st image elapsed).2.stats =
        DetectorBase.recordStatistics st.stats
          (EdgeDetector.detect body st image elapsed).1.length elapsed) ∧
    (∀ (body : Mat → List Defect × Bool) (st : EdgeDetectorState) (image : Mat) (elapsed : ℚ),
      (body image).2 = false →
      (EdgeDetector.detect body st image elapsed).2.stats = st.stats) ∧
    (∀ (diffPipeline : Mat → Mat → List Defect) (st : TemplateMatcherState) (image : Mat) (elapsed : ℚ),
      image.isEmpty = false →
      DetectorBase.hasReferenceImage st.referenceImage = true → st.enabled = true →
      (TemplateMatcher.detect diffPipeline st image elapsed).2.stats =
        DetectorBase.recordStatistics st.stats
          (TemplateMatcher.detect diffPipeline st image elapsed).1.length elapsed) := by
  refine ⟨?_, ?_, ?_, ?_, ?_⟩
  · intro alg st image elapsed h1 h2
    simp [FeatureDetector.detect, h1, h2]
  · intro alg st image elapsed h
    cases h with
    | inl h1 => simp [FeatureDetector.detect, h1]
    | inr h2 => simp [FeatureDetector.detect, h2]
  · intro body st image elapsed h1 h2 h3
    simp [EdgeDetector.detect, h1, h2, h3]
  · intro body st image elapsed h1
    by_cases himg : image.isEmpty = true
    · simp [EdgeDetector.detect, himg]
    · by_cases hen : st.enabled = true
      · simp [EdgeDetector.detect, himg, hen, h1]
      · simp [EdgeDetector.detect, himg, hen]
  · intro diffPipeline st image elapsed h1 h2 h3
    simp [TemplateMatcher.detect, h1, h2, h3]

/-- Witness for the amended statistics behavior: a completing FeatureDetector
call on the concrete 1 by 1 image with 2 ms elapsed records zero defects
and 2 ms on its fresh statistics. -/
theorem detector_statistics_on_completed_calls_witness :
    (FeatureDetector.detect alg0 fdState0 m7 2).2.stats =
      DetectorBase.recordStatistics fdState0.stats
        (FeatureDetector.detect alg0 fdState0 m7 2).1.length 2 :=
  detector_statistics_on_completed_calls.1 alg0 fdState0 m7 2 rfl rfl

/-- The processing loop of Pipeline::process skips every disabled filter, so
with all filters disabled the running image is handed back untouched. -/
theorem processGo_all_disabled (filters : List FilterBase) (current : Mat)
    (h : ∀ f ∈ filters, f.enabled = false) :
    Pipeline.processGo filters current = current := by
  induction filters with
  | nil => rfl
  | cons f fs ih =>
    have hf : f.enabled = false := h f (List.mem_cons_self f fs)
    have hrest : ∀ g ∈ fs, g.enabled = false :=
      fun g hg => h g (List.mem_cons_of_mem f hg)
    simp [Pipeline.processGo, hf, ih hrest]

/-- C7 counterexample: on the concrete non-empty image in buffer 7 and a
one-element, all-disabled filter list, Pipeline::process returns a Mat that
does share the underlying buffer with the input, so the claimed
distinct-buffer property is false at this input. -/
theorem pipeline_all_disabled_shares_buffer_cex :
    ¬ ((Pipeline.process [disabledFilter] m7 42).pixels = m7.pixels ∧
       (Pipeline.process [disabledFilter] m7 42).bufId ≠ m7.bufId) := by
  intro h
  exact h.2 rfl

/-- C7 amended: with a non-empty input and a non-empty filter list whose
filters are all disabled, Pipeline::process returns the input Mat itself:
equal pixel content in the same shared buffer, with no clone; only the
empty-filter-list path clones the input into a fresh buffer. -/
theorem pipeline_all_disabled_returns_input (filters : List FilterBase)
    (input : Mat) (fresh : Nat)
    (hne : input.isEmpty = false) (hfl : filters ≠ [])
    (hdis : ∀ f ∈ filters, f.enabled = false) :
    Pipeline.process filters input fresh = input := by
  unfold Pipeline.process
  have hfe : filters.isEmpty = false := by
    cases filters with
    | nil => exact absurd rfl hfl
    | cons f fs => rfl
  rw [hne, hfe]
  simp only [Bool.false_eq_true, if_false]
  exact processGo_all_disabled filters input hdis

/-- Witness: the disabled identity filter leaves the concrete image in
buffer 7 untouched, same pixels and same buffer. -/
theorem pipeline_all_disabled_returns_input_witness :
    Pipeline.process [disabledFilter] m7 42 = m7 :=
  pipeline_all_disabled_returns_input [disabledFilter] m7 42 rfl
    (by simp)
    (by
      intro f hf
      have hf1 : f = disabledFilter := by simpa using hf
      rw [hf1]
      rfl)

/-- Behavior of the common tail of inspect: whatever branch of the try block
was taken, the statistics are updated from the outgoing result; the surfaced
defects all passed the confidence filter; on success the judgment is the
count comparison; and a detector exception yields the failed result with
the boundary message and no defects. -/
theorem inspectDetectPhase_spec (s : ControllerState) (detectors : List Detector)
    (viz : Mat → List Defect → Mat) (image : Mat) (processedImage : Mat)
    (result0 : InspectionResult) (env : InspectEnv) (r : InspectionResult)
    (s2 : ControllerState)
    (h0 : result0.defects = [])
    (hr : InspectionController.inspectDetectPhase s detectors viz image
      processedImage result0 env = (r, s2)) :
    s2.totalInspections = s.totalInspections + 1 ∧
    s2.totalDefectsFound = s.totalDefectsFound + r.defects.length ∧
    s2.totalNGCount = s.totalNGCount + (if r.isOK = true then 0 else 1) ∧
    s2.totalProcessingTime = s.totalProcessingTime + r.totalTime ∧
    (∀ d ∈ r.defects, s.minDefectConfidence ≤ d.confidence) ∧
    (r.success = true → (r.isOK = true ↔ r.defects.length ≤ s.maxAllowedDefects)) ∧
    (∀ e, InspectionController.runDetectors detectors processedImage = Except.error e →
      r.success = false ∧ r.errorMessage = "Exception during inspection: " ++ e ∧
      r.defects = []) := by
  unfold InspectionController.inspectDetectPhase at hr
  cases hrun : InspectionController.runDetectors detectors processedImage with
  | error e0 =>
    simp only [hrun] at hr
    injection hr with hR hS
    subst hR
    subst hS
    refine ⟨rfl, rfl, rfl, rfl, ?_, ?_, ?_⟩
    · intro d hd
      simp [h0] at hd
    · intro h
      simp at h
    · intro e he
      injection he with h1
      subst h1
      exact ⟨rfl, rfl, h0⟩
  | ok allDefects =>
    simp only [hrun] at hr
    injection hr with hR hS
    subst hR
    subst hS
    refine ⟨rfl, rfl, rfl, rfl, ?_, ?_, ?_⟩
    · intro d hd
      simp only [InspectionResult.defects] at hd
      have hmem := (List.mem_filter.mp hd).2
      exact of_decide_eq_true hmem
    · intro _
      simp [InspectionController.judgeResult]
    · intro e he
      exact Except.noConfusion he

/-- Case split on the control flow of inspect: either the call fails input
validation or preprocessing and returns early with an unchanged controller
state, no defects and success false; or it reaches the common detection
tail applied to a result record that still carries an empty defect list. -/
theorem inspect_path_split (s : ControllerState) (pipeline : Option (List FilterBase))
    (detectors : List Detector) (viz : Mat → List Defect → Mat)
    (image : Mat) (env : InspectEnv) :
    ((image.isEmpty = true ∨
        InspectionController.preprocessOK pipeline image env.fresh env.pipeTime = false) ∧
      (InspectionController.inspect s pipeline detectors viz image env).1.success = false ∧
      (InspectionController.inspect s pipeline detectors viz image env).1.defects = [] ∧
      (InspectionController.inspect s pipeline detectors viz image env).2 = s) ∨
    (image.isEmpty = false ∧
      InspectionController.preprocessOK pipeline image env.fresh env.pipeTime = true ∧
      ∃ processedImage result0,
        result0.defects = [] ∧
        InspectionController.inspect s pipeline detectors viz image env =
          InspectionController.inspectDetectPhase s detectors viz image
            processedImage result0 env) := by
  cases himg : image.isEmpty with
  | true =>
    left
    refine ⟨Or.inl rfl, ?_, ?_, ?_⟩ <;> simp [InspectionController.inspect, himg]
  | false =>
    cases pipeline with
    | none =>
      right
      refine ⟨rfl, rfl, image.clone (env.fresh + 1),
        { ({} : InspectionResult) with
          originalImage := image.clone env.fresh,
          timestamp := env.timestamp }, rfl, ?_⟩
      simp [InspectionController.inspect, himg]
    | some filters =>
      by_cases hlen : 0 < filters.length
      · cases hsucc : (Pipeline.processWithIntermediates filters image
            (env.fresh + 2) env.pipeTime).success with
        | false =>
          left
          have hpre : InspectionController.preprocessOK (some filters) image
              env.fresh env.pipeTime = false := by
            simp [InspectionController.preprocessOK, hlen, hsucc]
          refine ⟨Or.inr hpre, ?_, ?_, ?_⟩ <;>
            simp [InspectionController.inspect, himg, hlen, hsucc]
        | true =>
          right
          have hpre : InspectionController.preprocessOK (some filters) image
              env.fresh env.pipeTime = true := by
            simp [InspectionController.preprocessOK, hlen, hsucc]
          refine ⟨rfl, hpre, (Pipeline.processWithIntermediates filters image
            (env.fresh + 2) env.pipeTime).finalImage,
            { ({} : InspectionResult) with
              originalImage := image.clone env.fresh,
              timestamp := env.timestamp,
              preprocessingTime := env.preprocessingTime }, rfl, ?_⟩
          simp [InspectionController.inspect, himg, hlen, hsucc]
      · right
        have hpre : InspectionController.preprocessOK (some filters) image
            env.fresh env.pipeTime = true := by
          simp [InspectionController.preprocessOK, hlen]
        refine ⟨rfl, hpre, image.clone (env.fresh + 1),
          { ({} : InspectionResult) with
            originalImage := image.clone env.fresh,
            timestamp := env.timestamp }, rfl, ?_⟩
        simp [InspectionController.inspect, himg, hlen]

/-- C4: on every successful inspect call the OK verdict holds exactly when
the confidence-filtered defect count is at most the configured
maxAllowedDefects, so a filtered count equal to the limit yields OK and one
above it yields NG. -/
theorem inspect_judgment_boundary (s : ControllerState)
    (pipeline : Option (List FilterBase)) (detectors : List Detector)
    (viz : Mat → List Defect → Mat) (image : Mat) (env : InspectEnv)
    (r : InspectionResult) (s2 : ControllerState)
    (hr : InspectionController.inspect s pipeline detectors viz image env = (r, s2))
    (hs : r.success = true) :
    r.isOK = true ↔ r.defects.length ≤ s.maxAllowedDefects := by
  rcases inspect_path_split s pipeline detectors viz image env with
    ⟨_, hsucc, _, _⟩ | ⟨_, _, pI, r0, h0, heq⟩
  · rw [hr] at hsucc
    rw [hs] at hsucc
    exact Bool.noConfusion hsucc
  · rw [heq] at hr
    exact (inspectDetectPhase_spec s detectors viz image pI r0 env r s2 h0 hr).2.2.2.2.2.1 hs

/-- Witness for the judgment boundary: a successful concrete call with zero
allowed defects and one surfaced defect, where the theorem ties the NG
verdict to the count comparison. -/
theorem inspect_judgment_boundary_witness :
    (InspectionController.inspect cState0 none [goodDetector] vizId m7 {}).1.isOK = true ↔
      (InspectionController.inspect cState0 none [goodDetector] vizId m7 {}).1.defects.length ≤
        cState0.maxAllowedDefects :=
  inspect_judgment_boundary cState0 none [goodDetector] vizId m7 {}
    (InspectionController.inspect cState0 none [goodDetector] vizId m7 {}).1
    (InspectionController.inspect cState0 none [goodDetector] vizId m7 {}).2
    rfl rfl

/-- C2 counterexample: with judgment criteria set through setJudgmentCriteria
to zero allowed defects and zero minimum confidence, a registered detector
reporting a zero-confidence defect with an empty box and a
confidence-above-one defect with a zero-width box gets both of them into
the returned defect list, so the claimed bounds are false at this input. -/
theorem inspect_defect_invariant_cex :
    ¬ (∀ d ∈ (InspectionController.inspect cState0 none [badDetector] vizId m7 {}).1.defects,
        0 < d.confidence ∧ d.confidence ≤ 1 ∧ 0 < d.bbox.width ∧ 0 < d.bbox.height) := by
  intro h
  have hlist : (InspectionController.inspect cState0 none [badDetector] vizId m7 {}).1.defects
      = [zeroConfDefect, overConfDefect] := rfl
  have h1 := h zeroConfDefect (by rw [hlist]; exact List.mem_cons_self _ _)
  exact lt_irrefl (0 : ℚ) h1.1

/-- C2 amended: whatever the configuration and the registered detectors,
every defect surfaced by inspect passed the confidence filter, so its
confidence is at least the configured minDefectConfidence; the controller
enforces nothing else: no upper confidence bound and no bounding-box
check, which hold only when the detectors themselves guarantee them. -/
theorem inspect_defects_pass_confidence_filter (s : ControllerState)
    (pipeline : Option (List FilterBase)) (detectors : List Detector)
    (viz : Mat → List Defect → Mat) (image : Mat) (env : InspectEnv)
    (r : InspectionResult) (s2 : ControllerState)
    (hr : InspectionController.inspect s pipeline detectors viz image env = (r, s2))
    (d : Defect) (hd : d ∈ r.defects) :
    s.minDefectConfidence ≤ d.confidence := by
  rcases inspect_path_split s pipeline detectors viz image env with
    ⟨_, _, hdef, _⟩ | ⟨_, _, pI, r0, h0, heq⟩
  · rw [hr] at hdef
    rw [hdef] at hd
    exact absurd hd (List.not_mem_nil d)
  · rw [heq] at hr
    exact (inspectDetectPhase_spec s detectors viz image pI r0 env r s2 h0 hr).2.2.2.2.1 d hd

/-- Witness for the confidence filter guarantee: the concrete surfaced
defect of the good detector has confidence at least the configured
minimum. -/
theorem inspect_defects_pass_confidence_filter_witness :
    cState0.minDefectConfidence ≤ goodDefect.confidence :=
  inspect_defects_pass_confidence_filter cState0 none [goodDetector] vizId m7 {}
    (InspectionController.inspect cState0 none [goodDetector] vizId m7 {}).1
    (InspectionController.inspect cState0 none [goodDetector] vizId m7 {}).2
    rfl goodDefect
    (by
      have hlist : (InspectionController.inspect cState0 none [goodDetector] vizId m7 {}).1.defects
          = [goodDefect] := rfl
      rw [hlist]
      exact List.mem_cons_self _ _)

/-- C1 counterexample: with a throwing detector registered before a healthy
one, inspect returns success false and an empty defect list at the concrete
input: the exception was not confined to the throwing detector, the healthy
detector's defect is gone, and the failure surfaces as success false. -/
theorem inspect_detector_exception_cex :
    (InspectionController.inspect {} none [throwingDetector, goodDetector] vizId m7 {}).1.success
      = false ∧
    (InspectionController.inspect {} none [throwingDetector, goodDetector] vizId m7 {}).1.defects
      = [] :=
  ⟨rfl, rfl⟩

/-- C1 amended: a detector exception is caught at the boundary of inspect,
not per detector: with no pipeline configured and a non-empty input, when
the detection loop raises, the call returns success false with the
boundary message and an empty defect list, detectors registered after the
raising one are never consulted, and the call statistics are still
updated. -/
theorem inspect_detector_exception_boundary (s : ControllerState)
    (detectors : List Detector) (viz : Mat → List Defect → Mat)
    (image : Mat) (env : InspectEnv) (e : String)
    (r : InspectionResult) (s2 : ControllerState)
    (hr : InspectionController.inspect s none detectors viz image env = (r, s2))
    (hne : image.isEmpty = false)
    (hthrow : InspectionController.runDetectors detectors (image.clone (env.fresh + 1)) =
      Except.error e) :
    r.success = false ∧
    r.errorMessage = "Exception during inspection: " ++ e ∧
    r.defects = [] ∧
    s2.totalInspections = s.totalInspections + 1 ∧
    (∀ (d : Detector) (rest : List Detector) (img : Mat),
      d.enabled = true → d.run img = Except.error e →
      InspectionController.runDetectors (d :: rest) img = Except.error e) := by
  have heq : InspectionController.inspect s none detectors viz image env =
      InspectionController.inspectDetectPhase s detectors viz image
        (image.clone (env.fresh + 1))
        { ({} : InspectionResult) with
          originalImage := image.clone env.fresh,
          timestamp := env.timestamp } env := by
    simp [InspectionController.inspect, hne]
  rw [heq] at hr
  have hspec := inspectDetectPhase_spec s detectors viz image
    (image.clone (env.fresh + 1))
    { ({} : InspectionResult) with
      originalImage := image.clone env.fresh,
      timestamp := env.timestamp } env r s2 rfl hr
  have hexc := hspec.2.2.2.2.2.2 e hthrow
  refine ⟨hexc.1, hexc.2.1, hexc.2.2, hspec.1, ?_⟩
  intro d rest img hden hrun
  simp [InspectionController.runDetectors, hden, hrun]

/-- Witness for the boundary handling of a detector exception: the concrete
throwing detector produces the boundary error message and the statistics
still count the call. -/
theorem inspect_detector_exception_boundary_witness :
    ((InspectionController.inspect {} none [throwingDetector] vizId m7 {}).1.errorMessage =
      "Exception during inspection: " ++ "boom") ∧
    ((InspectionController.inspect {} none [throwingDetector] vizId m7 {}).2.totalInspections =
      ({} : ControllerState).totalInspections + 1) := by
  have h := inspect_detector_exception_boundary {} [throwingDetector] vizId m7 {} "boom"
    (InspectionController.inspect {} none [throwingDetector] vizId m7 {}).1
    (InspectionController.inspect {} none [throwingDetector] vizId m7 {}).2
    rfl rfl rfl
  exact ⟨h.2.1, h.2.2.2.1⟩

/-- C3 counterexample: an inspect call on an empty input image returns
before the statistics block, so totalInspections stays at zero instead of
growing by one as claimed. -/
theorem inspect_statistics_empty_input_cex :
    ¬ ((InspectionController.inspect {} none [] vizId Mat.emptyMat {}).2.totalInspections =
        ({} : ControllerState).totalInspections + 1) := by
  intro h
  have h0 : (InspectionController.inspect {} none [] vizId Mat.emptyMat {}).2.totalInspections
      = 0 := rfl
  have h1 : ({} : ControllerState).totalInspections = 0 := rfl
  rw [h0, h1] at h
  exact absurd h (by decide)

/-- C3 amended: the running statistics are updated by every inspect call
that passes input validation and preprocessing, the caught-exception path
included: one more inspection, the surfaced defect count, the NG increment
and the measured total time are added; the empty-input path and the
preprocessing-failure path return early and leave every total untouched. -/
theorem inspect_statistics_update (s : ControllerState)
    (pipeline : Option (List FilterBase)) (detectors : List Detector)
    (viz : Mat → List Defect → Mat) (image : Mat) (env : InspectEnv)
    (r : InspectionResult) (s2 : ControllerState)
    (hr : InspectionController.inspect s pipeline detectors viz image env = (r, s2)) :
    (image.isEmpty = false →
      InspectionController.preprocessOK pipeline image env.fresh env.pipeTime = true →
      s2.totalInspections = s.totalInspections + 1 ∧
      s2.totalDefectsFound = s.totalDefectsFound + r.defects.length ∧
      s2.totalNGCount = s.totalNGCount + (if r.isOK = true then 0 else 1) ∧
      s2.totalProcessingTime = s.totalProcessingTime + r.totalTime) ∧
    ((image.isEmpty = true ∨
        InspectionController.preprocessOK pipeline image env.fresh env.pipeTime = false) →
      s2 = s) := by
  rcases inspect_path_split s pipeline detectors viz image env with
    ⟨hcond, _, _, hstate⟩ | ⟨hne, hpre, pI, r0, h0, heq⟩
  · constructor
    · intro h1 h2
      rcases hcond with hc | hc
      · rw [h1] at hc
        exact Bool.noConfusion hc
      · rw [h2] at hc
        exact Bool.noConfusion hc
    · intro _
      rw [hr] at hstate
      exact hstate
  · constructor
    · intro _ _
      rw [heq] at hr
      have hspec := inspectDetectPhase_spec s detectors viz image pI r0 env r s2 h0 hr
      exact ⟨hspec.1, hspec.2.1, hspec.2.2.1, hspec.2.2.2.1⟩
    · intro hcond
      rcases hcond with hc | hc
      · rw [hne] at hc
        exact Bool.noConfusion hc
      · rw [hpre] at hc
        exact Bool.noConfusion hc

/-- Witness for the statistics update: a concrete completing call counts
one inspection on a fresh controller. -/
theorem inspect_statistics_update_witness :
    (InspectionController.inspect {} none [] vizId m7 {}).2.totalInspections =
      ({} : ControllerState).totalInspections + 1 :=
  ((inspect_statistics_update {} none [] vizId m7 {}
    (InspectionController.inspect {} none [] vizId m7 {}).1
    (InspectionController.inspect {} none [] vizId m7 {}).2 rfl).1 rfl rfl).1
